import Mathlib

/-
Verification of the maestro-lightning task orchestration core against its
natural-language specification.

The definitions below are a shallow embedding of the Python source:
  * `State`                  — maestro_lightning/models/status.py, class State
  * `run_next_status`        — cli/parsers/task_runner.py, run_next, lines 61-78
  * `cancel_task`            — cli/parsers/task_runner.py, run_next, lines 69-75
  * `run_next`               — cli/parsers/task_runner.py, run_next, lines 61-95
Timestamps are modelled as natural numbers (minutes); machine files become
explicit `Option` state; Python exceptions become `Except PyErr`.
-/

namespace Maestro

/-- The lifecycle state enumeration from `models/status.py` (`class State`).
Note the source enum has NO `CANCELED` member; `task_runner.py` nevertheless
references `State.CANCELED`, which in Python raises `AttributeError`. -/
inductive State where
  | assigned
  | unknown
  | pending
  | running
  | completed
  | failed
  | finalized
deriving DecidableEq, Repr

/-- Python-level errors raised (or, for the last constructor, merely named by
the spec) on the code paths modelled in this file.
`invalidCommandTemplate` is modelled from the spec: the spec names an
`InvalidCommandTemplate` error kind, but no such class exists anywhere in the
source (`exceptions.py` defines `DatasetNotFound`, `ImageNotFound`,
`TaskNotFound`, `TaskExistsError`, `DatasetExistsError`, `ImageExistsError`
only); the constructor exists here solely so the spec claim can be stated and
compared against what the code actually raises. -/
inductive PyErr where
  | valueError (msg : String)
  | keyError (key : String)
  | nameError (nm : String)
  | attributeError (nm : String)
  | zeroDivisionError
  | exception (msg : String)
  | invalidCommandTemplate
deriving DecidableEq, Repr

deriving instance DecidableEq for Except

/-- The task-status aggregation of `run_next` (task_runner.py lines 61-78),
as a function of the list of job statuses.  Source:
  if all([status==State.COMPLETED for status in job_status]): ... COMPLETED
  elif sum([status == State.FAILED for status in job_status]) / len(job_status) > 0.1: ... FAILED
  else: ... FINALIZED
The float comparison `count/len > 0.1` is rendered by the exact rational
comparison `10 * count > len` (for job counts below 10^15 the rounded float
quotient exceeds the double nearest to 0.1 exactly when the rational quotient
exceeds 1/10, because 1/10 itself rounds to that double).  The division by
`len(job_status)` is evaluated only in the elif branch; reaching it with an
empty list would raise `ZeroDivisionError`, which the `Except` layer records. -/
def run_next_status (js : List State) : Except PyErr State :=
  if js.all (· == State.completed) then
    .ok State.completed
  else if js.length = 0 then
    .error .zeroDivisionError
  else if 10 * js.countP (· == State.failed) > js.length then
    .ok State.failed
  else
    .ok State.finalized

/-- A dependency graph: each task id paired with the ids in its `next` list. -/
abbrev Graph := List (Nat × List Nat)

/-- The `next` edge list of a task in a graph. -/
def nextOf (g : Graph) (t : Nat) : List Nat :=
  (g.lookup t).getD []

/-- The nested `cancel_task` closure of `run_next` (task_runner.py lines 69-75):
  def cancel_task( task ):
      for next_task in task.next:
          logger.info(...)
          next_task.status = State.CANCELED
          cancel_task( next_task )
The loop body first evaluates the right-hand side `State.CANCELED`; the
`State` enum (status.py / job.py) has no `CANCELED` member, so Python raises
`AttributeError` on the very first dependent task, before any status is
written and before any recursive call.  Hence the function performs zero
status writes when `next` is non-empty, and is a no-op when `next` is empty;
the returned list collects the status writes actually performed. -/
def cancel_task (g : Graph) (t : Nat) : Except PyErr (List Nat) :=
  match nextOf g t with
  | [] => .ok []
  | _ :: _ => .error (.attributeError "CANCELED")

/-- The finalization step of `run_next` (task_runner.py lines 61-95) for task
`t`: aggregate the job statuses, on `FAILED` run `cancel_task`, then (line 82)
  if task.status not in [State.COMPLETED, State.FINALIZED]:
      for task in task.next: ... script.submit()
submit every task in `next`.  The result carries the aggregated status, the
list of tasks whose status was written to canceled, and the list of submitted
downstream tasks.  Note the submission guard fires exactly when the status is
NOT completed/finalized. -/
def run_next (js : List State) (g : Graph) (t : Nat) :
    Except PyErr (State × List Nat × List Nat) :=
  match run_next_status js with
  | .error e => .error e
  | .ok st =>
    match (if st == State.failed then cancel_task g t else .ok []) with
    | .error e => .error e
    | .ok canceled =>
      let submitted :=
        if st == State.completed || st == State.finalized then [] else nextOf g t
      .ok (st, canceled, submitted)

/-- Basename of a file path: `filepath.split('/')[-1]` (task.py line 315),
i.e. the characters after the last slash (the whole string when there is no
slash, the empty string after a trailing slash). -/
def baseName (p : String) : String :=
  ⟨((p.toList.reverse).takeWhile (fun c => c != '/')).reverse⟩

/-- The persisted per-task ledger `db/task.json` created by `Task._create_db`
(task.py lines 288-306): a status string and the list of processed filenames. -/
structure TaskLedger where
  status : String
  files : List String
deriving DecidableEq, Repr

/-- The job-materialization pass `Task._update_db` (task.py lines 309-339):
  task = json.load(...) ; job_id = task.get('files',0)
  for filepath in self.input_data:
      filename = filepath.split('/')[-1]
      if not filename in task['files']:
          job = Job(task_path=..., job_id=job_id, status=JobStatus.ASSIGNED.value, ...)
          job.save()
          job_id += 1
  with open(...) as f: json.dump( task , f , ...)
`input_data` is the list of file paths under the input dataset.  task.py
neither imports nor defines `Job` or `JobStatus`, so the loop body raises
`NameError: name 'Job' is not defined` on the first filename absent from the
ledger, before any job record is written and before the ledger is re-dumped
(the callable is evaluated before its arguments).  When every filename is
already in the ledger the loop body never runs and the unmodified `task`
dict is written back.  Note also that the loop never appends any filename to
`task['files']`, and that `job_id` is initialised to the `files` list itself
(`task.get('files',0)`), not to a count. -/
def update_db (input_data : List String) (ledger : TaskLedger) :
    Except PyErr TaskLedger :=
  if input_data.all (fun fp => ledger.files.contains (baseName fp)) then
    .ok ledger
  else
    .error (.nameError "Job")

/-- Does the char list `s` start with the char list `pat`? -/
def startsWithL : List Char → List Char → Bool
  | _, [] => true
  | [], _ :: _ => false
  | a :: as, b :: bs => a == b && startsWithL as bs

/-- Does the char list `s` contain `pat` as a contiguous run? -/
def hasSubL : List Char → List Char → Bool
  | [], pat => pat.isEmpty
  | c :: rest, pat => startsWithL (c :: rest) pat || hasSubL rest pat

/-- Python substring containment `pat in s`. -/
def containsSub (s pat : String) : Bool :=
  hasSubL s.toList pat.toList

/-- The context registry (novacula/maestro `Context`): the registered dataset
names, image names and task names.  Only the name sets matter for the claims
modelled here. -/
structure Ctx where
  datasets : List String
  images : List String
  tasks : List String
deriving DecidableEq, Repr

/-- The validation-and-registration phase of `Task.__init__` (task.py lines
80-107), for `image` and `input_data` supplied as plain names:
  1. `if '%IN' not in command: raise ValueError("command must contain the placeholder %IN for input data.")`
  2. for each output key: `if f"%..." not in command: raise ValueError(...)`
  3. for each secondary key: likewise;
  4. `if input_data not in ctx.datasets: Exception(...)` — the `Exception` is
     constructed but NOT raised (no `raise` keyword, line 93); execution falls
     through to `input_data = ctx.datasets[input_data]`, which raises
     `KeyError` for a missing name;
  5. the same unraised-`Exception`-then-`KeyError` pattern for `image`
     (lines 96-99);
  6. `if self.name in ctx.tasks: raise Exception("a task with name ... already exists ...")`;
  7. register: `ctx.tasks[self.name] = self` (task_id = len(ctx.tasks)).
The pair returned is (outcome, context after the call): every error above is
raised before the registration of step 7, so the context is unchanged on
those paths. -/
def task_init (nm command : String) (outKeys secKeys : List String)
    (input_data image : String) (ctx : Ctx) : Except PyErr Unit × Ctx :=
  if containsSub command "%IN" = false then
    (.error (.valueError "command must contain the placeholder %IN for input data."), ctx)
  else
    match outKeys.find? (fun k => !containsSub command ("%" ++ k)) with
    | some k =>
      (.error (.valueError ("command must contain the placeholder %" ++ k ++ " for output data.")), ctx)
    | none =>
      match secKeys.find? (fun k => !containsSub command ("%" ++ k)) with
      | some k =>
        (.error (.valueError ("command must contain the placeholder %" ++ k ++ " for secondary data.")), ctx)
      | none =>
        if ctx.datasets.contains input_data = false then
          (.error (.keyError input_data), ctx)
        else if ctx.images.contains image = false then
          (.error (.keyError image), ctx)
        else if ctx.tasks.contains nm then
          (.error (.exception ("a task with name " ++ nm ++ " already exists inside of this group of tasks.")), ctx)
        else
          (.ok (), { ctx with tasks := ctx.tasks ++ [nm] })

/-- The deduplicating `next` property setter (task.py lines 151-157):
  for task in tasks:
      if task and (task not in self._next):
          self._next.append( task )
`cur` is the current `_next` list, `ts` the assigned value.  Task objects are
always truthy, so the `if task` guard always passes here. -/
def next_setter (cur ts : List Nat) : List Nat :=
  ts.foldl (fun acc t => if acc.contains t then acc else acc ++ [t]) cur

/-- The net effect of the augmented assignment `producer.next += [self]`
(task.py lines 130 and 134).  Python evaluates it as
`producer.next = producer.next.__iadd__([self])`: the property getter returns
the underlying `_next` list object, `list.__iadd__` appends `self` to it IN
PLACE (no duplicate check), and the setter then receives that already-extended
list, every element of which is already in `_next`, so the setter appends
nothing further.  The net effect is therefore an unconditional append, even
when `self` is already present. -/
def next_iadd (cur : List Nat) (t : Nat) : List Nat :=
  next_setter (cur ++ [t]) (cur ++ [t])

/-- Point update of a task's `_next` list inside the graph map. -/
def updateNext (m : List (Nat × List Nat)) (p t : Nat) : List (Nat × List Nat) :=
  m.map (fun pr => if pr.1 == p then (pr.1, next_iadd pr.2 t) else pr)

/-- The DAG-wiring phase of `Task.__init__` (task.py lines 121-135) for a new
task `selfId`: for each secondary dataset with a producing task, and then for
the input dataset if it has one,
  producer.next += [self]      -- via `next_iadd`, an unconditional append
  self._prev += [producer]     -- a direct list extension of `_prev`, which
                               -- never goes through the deduplicating `prev`
                               -- property setter
`secondaryProducers` lists the producing task of each secondary dataset (in
dict order), `inputProducer` that of the input dataset; `nextMap` maps each
existing task id to its `_next` list and `prev` is the new task's `_prev`. -/
def build_edges (secondaryProducers : List (Option Nat)) (inputProducer : Option Nat)
    (selfId : Nat) (nextMap : List (Nat × List Nat)) (prev : List Nat) :
    List (Nat × List Nat) × List Nat :=
  let step := fun (st : List (Nat × List Nat) × List Nat) (p? : Option Nat) =>
    match p? with
    | none => st
    | some p => (updateNext st.1 p selfId, st.2 ++ [p])
  step (secondaryProducers.foldl step (nextMap, prev)) inputProducer

/-- The persisted per-job status record, i.e. the three fields that
`Status.to_dict` (status.py lines 28-33) serialises into
`jobs/status/job_<id>.json`.  Timestamps are modelled in minutes. -/
structure StatusRec where
  status : State
  start_time : Nat
  last_time : Nat
deriving DecidableEq, Repr

/-- The in-memory `Status` object (status.py lines 18-51).  `time` models the
extra attribute that `ping` creates: `Status.ping` is
  def ping(self): self.time = datetime.now()
which assigns to a fresh attribute `time` — not to `last_time` — and no other
method reads it; `to_dict` does not serialise it. -/
structure StatusObj where
  status : State
  start_time : Nat
  last_time : Nat
  time : Option Nat
deriving DecidableEq, Repr

/-- `Status.from_dict` (status.py lines 35-41): the deserialised object has no
`time` attribute. -/
def status_from_dict (r : StatusRec) : StatusObj :=
  ⟨r.status, r.start_time, r.last_time, none⟩

/-- `Status.to_dict` (status.py lines 28-33): serialises status, last_time and
start_time only. -/
def status_to_dict (s : StatusObj) : StatusRec :=
  ⟨s.status, s.start_time, s.last_time⟩

/-- `Status.ping` (status.py lines 43-44): `self.time = datetime.now()`. -/
def status_ping (now : Nat) (s : StatusObj) : StatusObj :=
  { s with time := some now }

/-- `Status.is_alive` (status.py lines 46-47):
`datetime.now() - self.last_time < timedelta(minutes=minutes)`. -/
def status_is_alive (now minutes : Nat) (s : StatusObj) : Bool :=
  now - s.last_time < minutes

/-- `Status.reset` (status.py lines 49-51): sets both timestamps to now. -/
def status_reset (now : Nat) (s : StatusObj) : StatusObj :=
  { s with start_time := now, last_time := now }

/-- `Job.ping` (job.py lines 207-214): if the status file exists, deserialise
it, call `Status.ping`, and write `to_dict` back; if the file does not exist,
do nothing (no record is created). -/
def job_ping (now : Nat) (fs : Option StatusRec) : Option StatusRec :=
  match fs with
  | none => none
  | some r => some (status_to_dict (status_ping now (status_from_dict r)))

/-- `Job.is_alive` (job.py lines 216-223): `False` when the status file does
not exist, otherwise `Status.is_alive` of the deserialised record with the
default 5-minute window. -/
def job_is_alive (now : Nat) (fs : Option StatusRec) : Bool :=
  match fs with
  | none => false
  | some r => status_is_alive now 5 (status_from_dict r)

/-- `Job.reset` (job.py lines 225-232): if the status file exists, deserialise,
`Status.reset`, write back; if it does not exist, do nothing. -/
def job_reset (now : Nat) (fs : Option StatusRec) : Option StatusRec :=
  match fs with
  | none => none
  | some r => some (status_to_dict (status_reset now (status_from_dict r)))

/-- The `Job.status` setter (job.py lines 199-204): builds
`Status(new_status)` and writes it unconditionally, whether or not a record
already exists.  `tdef` is the timestamp captured by the mutable default
arguments `start_time=datetime.now(), last_time=datetime.now()` of
`Status.__init__` (evaluated once, at class definition time). -/
def job_set_status (s : State) (tdef : Nat) (_fs : Option StatusRec) :
    Option StatusRec :=
  some ⟨s, tdef, tdef⟩

/-
Theorems.  Each claim of the specification is settled below against the
definitions above.
-/

/-- Helper for the finalization rule: elements equal to `unknown` contribute
nothing to the count of `failed` job statuses. -/
theorem countP_failed_ignores_unknown (js : List State) :
    js.countP (· == State.failed)
      = (js.filter (fun s => s != State.unknown)).countP (· == State.failed) := by
  induction js with
  | nil => rfl
  | cons a t ih => cases a <;> simp [List.countP_cons, List.filter_cons, ih]

/-- Claim C1.  The claim states: for every task finalized by `run_next`, if
the resulting status is neither completed nor finalized then no task in its
`next` set is submitted, and if it is completed or finalized then every task
in `next` is submitted.  The code does the opposite: the guard at
task_runner.py line 82 submits the `next` tasks exactly when the status is
NOT in `[State.COMPLETED, State.FINALIZED]`.  Concretely, a task whose single
job completed (aggregated status `completed`) with `next = [1]` submits
nothing, although its `next` list is `[1]`. -/
theorem run_next_completed_skips_downstream :
    run_next [State.completed] [(0, [1]), (1, [])] 0
      = .ok (State.completed, [], [])
  ∧ nextOf [(0, [1]), (1, [])] 0 = [1] :=
  ⟨rfl, rfl⟩

/-- Claim C2.  The claim states that materialization is idempotent and that
`k` new input files yield exactly `k` new jobs with fresh increasing ids.  In
the code, `Task._update_db` raises `NameError` (the names `Job` and
`JobStatus` are neither imported nor defined in task.py) as soon as one input
file is absent from the ledger, creating no job at all; and on the path with
no new files it rewrites the ledger unchanged — the loop never appends any
filename to `task['files']`, so even with the names fixed a second invocation
would re-create every job. -/
theorem update_db_new_file_name_error :
    update_db ["/data/file_0.txt"] ⟨"assigned", []⟩ = .error (.nameError "Job")
  ∧ update_db ["/data/file_0.txt"] ⟨"assigned", ["file_0.txt"]⟩
      = .ok ⟨"assigned", ["file_0.txt"]⟩ :=
  ⟨rfl, rfl⟩

/-- Claim C3.  For every non-empty list of job statuses, the `run_next`
aggregation yields `completed` exactly when every job status is completed,
`failed` exactly when not all are completed and the failed fraction strictly
exceeds 10 percent (10 · count(failed) > count(jobs), so exactly 10 percent
yields `finalized`), and `finalized` otherwise; a status of `unknown` blocks
the all-completed case and contributes nothing to the failed count. -/
theorem run_next_status_finalization_rule (js : List State) (h : js ≠ []) :
    (run_next_status js = .ok State.completed ↔ ∀ s ∈ js, s = State.completed)
  ∧ (run_next_status js = .ok State.failed ↔
      (¬ ∀ s ∈ js, s = State.completed) ∧ 10 * js.countP (· == State.failed) > js.length)
  ∧ (run_next_status js = .ok State.finalized ↔
      (¬ ∀ s ∈ js, s = State.completed) ∧ 10 * js.countP (· == State.failed) ≤ js.length)
  ∧ (State.unknown ∈ js → run_next_status js ≠ .ok State.completed)
  ∧ js.countP (· == State.failed)
      = (js.filter (fun s => s != State.unknown)).countP (· == State.failed) := by
  have hlen : ¬ js.length = 0 := fun hl => h (List.length_eq_zero.mp hl)
  have hunk : (∀ s ∈ js, s = State.completed) → State.unknown ∈ js → False := by
    intro hall hu
    exact absurd (hall State.unknown hu) (by simp)
  by_cases hall : ∀ s ∈ js, s = State.completed
  · have hb : js.all (· == State.completed) = true := by
      simp [List.all_eq_true]; exact hall
    have hres : run_next_status js = .ok State.completed := by
      simp [run_next_status, hb]
    refine ⟨?_, ?_, ?_, ?_, countP_failed_ignores_unknown js⟩
    · rw [hres]; exact iff_of_true rfl hall
    · rw [hres]
      constructor
      · intro hc; exact absurd (Except.ok.inj hc) (by decide)
      · rintro ⟨hna, _⟩; exact absurd hall hna
    · rw [hres]
      constructor
      · intro hc; exact absurd (Except.ok.inj hc) (by decide)
      · rintro ⟨hna, _⟩; exact absurd hall hna
    · intro hu _; exact hunk hall hu
  · have hb : ¬ js.all (· == State.completed) = true := by
      simp [List.all_eq_true]
      push_neg at hall
      obtain ⟨s, hs, hne⟩ := hall
      exact ⟨s, hs, hne⟩
    by_cases hgt : 10 * js.countP (· == State.failed) > js.length
    · have hres : run_next_status js = .ok State.failed := by
        simp [run_next_status, hb, hlen, hgt]
      refine ⟨?_, ?_, ?_, ?_, countP_failed_ignores_unknown js⟩
      · rw [hres]
        constructor
        · intro hc; exact absurd (Except.ok.inj hc) (by decide)
        · intro hc; exact absurd hc hall
      · rw [hres]; exact iff_of_true rfl ⟨hall, hgt⟩
      · rw [hres]
        constructor
        · intro hc; exact absurd (Except.ok.inj hc) (by decide)
        · rintro ⟨_, hle⟩; omega
      · intro _ hc; rw [hres] at hc; exact absurd (Except.ok.inj hc) (by decide)
    · have hres : run_next_status js = .ok State.finalized := by
        simp [run_next_status, hb, hlen, hgt]
      refine ⟨?_, ?_, ?_, ?_, countP_failed_ignores_unknown js⟩
      · rw [hres]
        constructor
        · intro hc; exact absurd (Except.ok.inj hc) (by decide)
        · intro hc; exact absurd hc hall
      · rw [hres]
        constructor
        · intro hc; exact absurd (Except.ok.inj hc) (by decide)
        · rintro ⟨_, hgt2⟩; exact absurd hgt2 hgt
      · rw [hres]; exact iff_of_true rfl ⟨hall, by omega⟩
      · intro _ hc; rw [hres] at hc; exact absurd (Except.ok.inj hc) (by decide)

/-- Claim C3, witness: the finalization rule instantiated at the concrete job
status list `[completed, failed, unknown]` (3 jobs, 1 failed, fraction above
10 percent, so the aggregated status is `failed`). -/
theorem run_next_status_finalization_rule_witness :
    ((run_next_status [State.completed, State.failed, State.unknown]
        = .ok State.completed
      ↔ ∀ s ∈ [State.completed, State.failed, State.unknown], s = State.completed)
  ∧ (run_next_status [State.completed, State.failed, State.unknown]
        = .ok State.failed
      ↔ (¬ ∀ s ∈ [State.completed, State.failed, State.unknown], s = State.completed)
        ∧ 10 * List.countP (· == State.failed)
            [State.completed, State.failed, State.unknown]
          > List.length [State.completed, State.failed, State.unknown])
  ∧ (run_next_status [State.completed, State.failed, State.unknown]
        = .ok State.finalized
      ↔ (¬ ∀ s ∈ [State.completed, State.failed, State.unknown], s = State.completed)
        ∧ 10 * List.countP (· == State.failed)
            [State.completed, State.failed, State.unknown]
          ≤ List.length [State.completed, State.failed, State.unknown])
  ∧ (State.unknown ∈ [State.completed, State.failed, State.unknown] →
      run_next_status [State.completed, State.failed, State.unknown]
        ≠ .ok State.completed)
  ∧ List.countP (· == State.failed)
        [State.completed, State.failed, State.unknown]
      = List.countP (· == State.failed)
          (List.filter (fun s => s != State.unknown)
            [State.completed, State.failed, State.unknown])) :=
  run_next_status_finalization_rule
    [State.completed, State.failed, State.unknown] (by decide)

/-- Claim C4.  The claim states that cascading cancellation marks every task
transitively reachable over `next` edges as canceled, visiting each at most
once even in the diamond graph A→B, A→C, B→D, C→D.  In the code, the first
loop iteration of `cancel_task` evaluates `State.CANCELED`, an attribute the
`State` enum does not have, so Python raises `AttributeError` before any
status write: on the diamond rooted at task 0, no task is canceled at all
(and, were the enum member added, the unguarded recursion would visit task 3
twice and would not terminate on a cyclic graph). -/
theorem cancel_task_diamond_attribute_error :
    cancel_task [(0, [1, 2]), (1, [3]), (2, [3]), (3, [])] 0
      = .error (.attributeError "CANCELED")
  ∧ cancel_task [(0, [1, 2]), (1, [3]), (2, [3]), (3, [])] 3 = .ok [] :=
  ⟨rfl, rfl⟩

/-- Claim C5.  Finalizing a task with zero jobs yields `completed` (Python's
`all([])` is `True`, so the first branch is taken) and the failure-ratio
division guarded inside the `elif` is never evaluated, hence no
`ZeroDivisionError` is recorded. -/
theorem run_next_status_zero_jobs_completed :
    run_next_status [] = .ok State.completed :=
  rfl

/-- Claim C6.  The claim states that `ping()` refreshes the record's
`last_time` so a subsequent `is_alive()` inside the window returns true.  In
the code, `Status.ping` assigns `datetime.now()` to a fresh attribute `time`
that is never serialised or read, so `Job.ping` writes the record back with
`last_time` unchanged: pinging at time 100 a record whose `last_time` is 0
leaves the record identical, and `is_alive` immediately afterwards is false
(the 5-minute window relative to the stale `last_time` has long elapsed). -/
theorem job_ping_leaves_last_time_stale :
    job_ping 100 (some ⟨State.running, 0, 0⟩) = some ⟨State.running, 0, 0⟩
  ∧ job_is_alive 100 (job_ping 100 (some ⟨State.running, 0, 0⟩)) = false :=
  ⟨rfl, rfl⟩

/-- Claim C7, counterexample: constructing a task whose command lacks `%IN`
fails with Python's built-in `ValueError`, not with the
`InvalidCommandTemplate` error the claim names (no such error exists in the
repository). -/
theorem task_init_value_error_not_invalid_command_template :
    (task_init "t" "run" [] [] "d" "img" ⟨["d"], ["img"], []⟩).1
      = .error (.valueError "command must contain the placeholder %IN for input data.")
  ∧ (task_init "t" "run" [] [] "d" "img" ⟨["d"], ["img"], []⟩).1
      ≠ .error .invalidCommandTemplate := by
  constructor
  · rfl
  · decide

/-- Claim C7, as amended: for every task construction whose command lacks the
`%IN` placeholder, or lacks the `%{key}` placeholder for some declared output
or secondary-data key, construction fails with a `ValueError` and the task is
not registered in the context (the returned context is unchanged). -/
theorem task_init_missing_placeholder_value_error
    (nm command : String) (outKeys secKeys : List String)
    (input_data image : String) (ctx : Ctx)
    (h : containsSub command "%IN" = false
       ∨ (∃ k ∈ outKeys, containsSub command ("%" ++ k) = false)
       ∨ (∃ k ∈ secKeys, containsSub command ("%" ++ k) = false)) :
    (∃ msg, (task_init nm command outKeys secKeys input_data image ctx).1
        = .error (.valueError msg))
    ∧ (task_init nm command outKeys secKeys input_data image ctx).2 = ctx := by
  by_cases hin : containsSub command "%IN" = false
  · constructor
    · exact ⟨"command must contain the placeholder %IN for input data.",
        by simp [task_init, hin]⟩
    · simp [task_init, hin]
  · have hin' : containsSub command "%IN" = true := by
      cases hc : containsSub command "%IN" with
      | true => rfl
      | false => exact absurd hc hin
    cases hfo : outKeys.find? (fun k => !containsSub command ("%" ++ k)) with
    | some k =>
      constructor
      · exact ⟨"command must contain the placeholder %" ++ k ++ " for output data.",
          by simp [task_init, hin', hfo]⟩
      · simp [task_init, hin', hfo]
    | none =>
      have hno : ∀ k ∈ outKeys, ¬ containsSub command ("%" ++ k) = false := by
        intro k hk
        have := List.find?_eq_none.mp hfo k hk
        simpa using this
      cases hfs : secKeys.find? (fun k => !containsSub command ("%" ++ k)) with
      | some k =>
        constructor
        · exact ⟨"command must contain the placeholder %" ++ k ++ " for secondary data.",
            by simp [task_init, hin', hfo, hfs]⟩
        · simp [task_init, hin', hfo, hfs]
      | none =>
        exfalso
        have hns : ∀ k ∈ secKeys, ¬ containsSub command ("%" ++ k) = false := by
          intro k hk
          have := List.find?_eq_none.mp hfs k hk
          simpa using this
        rcases h with h | ⟨k, hk, hkf⟩ | ⟨k, hk, hkf⟩
        · exact absurd h hin
        · exact hno k hk hkf
        · exact hns k hk hkf

/-- Claim C7, witness: a construction whose command `"run %IN"` lacks the
placeholder for the declared output key `OUT` fails with a `ValueError` and
leaves the context unchanged. -/
theorem task_init_missing_placeholder_witness :
    (containsSub "run %IN" "%IN" = false
       ∨ (∃ k ∈ ["OUT"], containsSub "run %IN" ("%" ++ k) = false)
       ∨ (∃ k ∈ ([] : List String), containsSub "run %IN" ("%" ++ k) = false))
  ∧ ((∃ msg, (task_init "t" "run %IN" ["OUT"] [] "d" "img" ⟨["d"], ["img"], []⟩).1
        = .error (.valueError msg))
    ∧ (task_init "t" "run %IN" ["OUT"] [] "d" "img" ⟨["d"], ["img"], []⟩).2
        = ⟨["d"], ["img"], []⟩) :=
  ⟨by decide,
   task_init_missing_placeholder_value_error "t" "run %IN" ["OUT"] [] "d" "img"
     ⟨["d"], ["img"], []⟩ (by decide)⟩

/-- Claim C8.  The claim states that a plain-name `image` or `input_data`
absent from the context's registries fails construction with `ImageNotFound`
or `DatasetNotFound` carrying the offending name.  In the code the matching
`Exception(...)` is constructed but never raised (`raise` is missing at
task.py lines 93 and 98), and the fall-through subscript
`ctx.datasets[input_data]` / `ctx.images[image]` raises a bare `KeyError`;
the `DatasetNotFound`/`ImageNotFound` classes of exceptions.py are never
used.  The task is, as claimed, not registered. -/
theorem task_init_unresolved_name_key_error :
    task_init "t" "run %IN" [] [] "nodata" "img" ⟨[], ["img"], []⟩
      = (.error (.keyError "nodata"), ⟨[], ["img"], []⟩)
  ∧ task_init "t" "run %IN" [] [] "d" "noimg" ⟨["d"], [], []⟩
      = (.error (.keyError "noimg"), ⟨["d"], [], []⟩) :=
  ⟨rfl, rfl⟩

/-- Claim C9.  The claim states that after construction the `next`/`prev`
edge lists behave as insertion-ordered sets even when the same producer
supplies both the input and a secondary dataset.  In the code, producer 0
supplying both datasets of new task 1 yields `producer._next = [1, 1]` and
`task._prev = [0, 0]`: the augmented assignment `next += [self]` extends the
underlying list in place before the deduplicating setter runs, and `_prev` is
extended directly without ever passing through the `prev` setter. -/
theorem build_edges_shared_producer_duplicates :
    build_edges [some 0] (some 0) 1 [(0, [])] [] = ([(0, [1, 1])], [0, 0]) :=
  rfl

/-- Claim C10.  For a job whose status record does not exist (`none`),
`is_alive` returns false, `ping` and `reset` are no-ops that create no
record, and only the explicit status write creates one. -/
theorem job_missing_record_operations (now tdef : Nat) (s : State) :
    job_is_alive now none = false
  ∧ job_ping now none = none
  ∧ job_reset now none = none
  ∧ job_set_status s tdef none = some ⟨s, tdef, tdef⟩ :=
  ⟨rfl, rfl, rfl, rfl⟩

end Maestro
